import Mathlib

/-!
Verification of the host↔VM bridging layer (`src/python/olol.py`,
`src/python/objectivelol.py`).

The embedding models:
- `GoVal`: the VM-native tagged value (`NativeValue` in the spec; the gopy
  `GoValue`/`Slice_api_GoValue`/`Map_string_api_GoValue` wrappers). Modelled
  from the spec: the `GoValue` API (`WrapInt`, `WrapFloat`, `WrapString`,
  `WrapBool`, `Type`, `Int`, `Float`, `String`, `Bool`, `Slice`, `Map`, `ID`)
  lives in the compiled Go module, not in `src/`; primitives carry their tag
  and payload exactly, sequences carry their elements in order, maps carry
  string-keyed entries, and an object handle carries its fresh ID.
- `PyVal`: Python host values as seen by the codec. Python floats are an
  opaque payload (`PFloat`, the float64 bit pattern): the codec only passes
  them through, never computes with them.
- `BridgeState`: the module-level mutable state of `olol.py`
  (`defined_functions`, `object_instances`) together with the observable
  effects on the external VM (classes defined, `ClassDefinition` submissions,
  `DefineFunction` registrations, fresh instance handles). Modelled from the
  spec: `DefineClass`, `DefineFunction`, `NewObjectInstance` and `uuid4` are
  external collaborators; `DefineClass` records the submission and marks the
  name defined, `NewObjectInstance` allocates a fresh handle, and `uuid4` is
  a fresh-identifier source (modelled as a counter-derived string, per the
  spec: a generated identifier with negligible collision probability).
-/

namespace Olol

/-- Opaque carrier for a Python float payload (the float64 bit pattern).
The codec moves floats across the boundary unchanged and never computes with
them; equality is bit equality (exceptional values such as NaN, whose Python
equality differs from bit equality, are outside the modelled scope). -/
structure PFloat where
  bits : Nat
deriving DecidableEq

/-- The VM-native tagged value. `GNothing` prints tag NOTHIN, `GInt` INTEGR,
`GDouble` DUBBLE, `GString` STRIN, `GBool` BOOL, `GSlice` BUKKIT, `GMap`
BASKIT; `GHandle` is an object-instance handle carrying its ID. -/
inductive GoVal where
  | GNothing
  | GInt (n : Int)
  | GDouble (f : PFloat)
  | GString (s : String)
  | GBool (b : Bool)
  | GSlice (xs : List GoVal)
  | GMap (ps : List (String × GoVal))
  | GHandle (hid : Int)

/-- Python host values handled by the codec. `VGoValue` is a `GoValue`
object held on the Python side (handles and VM results pass through the
codec unchanged); `VObj` is any other Python object: `oid` models its
identity (`is`), `cls` is `type(value).__name__`, and `attrs` are its
attributes as read/written by `getattr`/`setattr`. -/
inductive PyVal where
  | VNone
  | VBool (b : Bool)
  | VInt (n : Int)
  | VFloat (f : PFloat)
  | VStr (s : String)
  | VGoValue (g : GoVal)
  | VList (xs : List PyVal)
  | VTuple (xs : List PyVal)
  | VDict (ps : List (String × PyVal))
  | VObj (oid : Nat) (cls : String) (attrs : List (String × PyVal))

/-- Association-list lookup (first match wins), used for the module-level
dictionaries `defined_functions` and `object_instances` and for the
`ClassDefinition` member tables. -/
def lookupA {κ α : Type} [BEq κ] : List (κ × α) → κ → Option α
  | [], _ => none
  | (k, v) :: l, key => if k == key then some v else lookupA l key

/-- Association-list update with Python `d[k] = v` semantics: an existing
key is overwritten in place, a new key is appended. -/
def updateA {κ α : Type} [BEq κ] : List (κ × α) → κ → α → List (κ × α)
  | [], key, val => [(key, val)]
  | (k, v) :: l, key, val =>
    if k == key then (key, val) :: l else (k, v) :: updateA l key val

mutual
/-- Structural equality of VM values (gopy wrapper equality is not observed
by any claim; two wrappers are compared by content here). -/
def gvBeq : GoVal → GoVal → Bool
  | .GNothing, .GNothing => true
  | .GInt n, .GInt m => n == m
  | .GDouble f, .GDouble g => f == g
  | .GString s, .GString t => s == t
  | .GBool a, .GBool b => a == b
  | .GSlice xs, .GSlice ys => gvBeqList xs ys
  | .GMap ps, .GMap qs => gvBeqEntries ps qs
  | .GHandle h1, .GHandle h2 => h1 == h2
  | _, _ => false

/-- Elementwise `gvBeq` on slices. -/
def gvBeqList : List GoVal → List GoVal → Bool
  | [], [] => true
  | x :: xs, y :: ys => gvBeq x y && gvBeqList xs ys
  | _, _ => false

/-- Entrywise `gvBeq` on map payloads. -/
def gvBeqEntries : List (String × GoVal) → List (String × GoVal) → Bool
  | [], [] => true
  | (k1, v1) :: ps, (k2, v2) :: qs => k1 == k2 && gvBeq v1 v2 && gvBeqEntries ps qs
  | _, _ => false
end

mutual
/-- Python `==` on the modelled host values. Booleans compare equal to the
integers 0/1 (Python `True == 1`); dictionaries compare by key set and
valuewise equality, order-insensitively; objects compare by identity
(default `object.__eq__`). Numeric cross-equality between `int` and `float`
is not modelled (the codec never changes a value between those two tags). -/
def pyEq : PyVal → PyVal → Bool
  | .VNone, .VNone => true
  | .VBool a, .VBool b => a == b
  | .VBool a, .VInt m => (if a then (1 : Int) else 0) == m
  | .VInt n, .VBool b => n == (if b then (1 : Int) else 0)
  | .VInt n, .VInt m => n == m
  | .VFloat f, .VFloat g => f == g
  | .VStr s, .VStr t => s == t
  | .VGoValue g1, .VGoValue g2 => gvBeq g1 g2
  | .VList xs, .VList ys => pyEqList xs ys
  | .VTuple xs, .VTuple ys => pyEqList xs ys
  | .VDict ps, .VDict qs => ps.length == qs.length && pyEqEntries ps qs
  | .VObj o1 _ _, .VObj o2 _ _ => o1 == o2
  | _, _ => false

/-- Elementwise `pyEq` on sequences. -/
def pyEqList : List PyVal → List PyVal → Bool
  | [], [] => true
  | x :: xs, y :: ys => pyEq x y && pyEqList xs ys
  | _, _ => false

/-- Every key of the first dictionary is bound in the second to a
`pyEq`-equal value. -/
def pyEqEntries : List (String × PyVal) → List (String × PyVal) → Bool
  | [], _ => true
  | (k, v) :: ps, qs =>
    (match lookupA qs k with
     | some w => pyEq v w
     | none => false) && pyEqEntries ps qs
end

mutual
/-- `convert_from_go_value` of `olol.py`: decodes a VM value by tag. There
is no NOTHIN branch: anything other than the six decoded tags — including
the Nothing value — falls through to the final object-handle case and is
returned as the `GoValue` itself. -/
def convert_from_go_value : GoVal → PyVal
  | .GInt n => .VInt n
  | .GDouble f => .VFloat f
  | .GString s => .VStr s
  | .GBool b => .VBool b
  | .GSlice xs => .VList (fromGoList xs)
  | .GMap ps => .VDict (fromGoEntries ps)
  | g => .VGoValue g

/-- Decoding of BUKKIT elements, in order. -/
def fromGoList : List GoVal → List PyVal
  | [] => []
  | x :: xs => convert_from_go_value x :: fromGoList xs

/-- Decoding of BASKIT entries (the dict comprehension over `Map().items()`). -/
def fromGoEntries : List (String × GoVal) → List (String × PyVal)
  | [] => []
  | (k, v) :: ps => (k, convert_from_go_value v) :: fromGoEntries ps
end

/-- The guard `if not isinstance(go_value, GoValue): return go_value` at the
top of `convert_from_go_value`: applied to a Python value that is not a
`GoValue` wrapper, the function returns it unchanged. -/
def convert_from_py : PyVal → PyVal
  | .VGoValue g => convert_from_go_value g
  | v => v

/-- Python `getattr(obj, name)`: reads an attribute of an object instance;
raises AttributeError (as an error message) otherwise. -/
def pyGetAttr : PyVal → String → Except String PyVal
  | .VObj _ _ attrs, a =>
    match lookupA attrs a with
    | some v => .ok v
    | none => .error ("AttributeError: " ++ a)
  | _, a => .error ("AttributeError: " ++ a)

/-- Python `setattr(obj, name, v)`: writes an attribute in place; modelled
as returning the updated instance, which the caller stores back under the
same registry key (the registry entry aliases the mutated object). -/
def pySetAttr : PyVal → String → PyVal → Except String PyVal
  | .VObj oid cls attrs, a, v => .ok (.VObj oid cls (updateA attrs a v))
  | _, a, _ => .error ("AttributeError: " ++ a)

/-- An entry of `defined_functions`: the host callable stored under a
generated identifier. Every entry in `olol.py` is a pair `(vm, fn)`; the
single VM of the model is left implicit, and `fn` is one of the shapes the
module actually stores. The closure bodies become data so that the registry
stays a first-order state component:
- `userFn f`: a function registered through `define_function`;
- `getterW g`: the `__build_variable` getter wrapper
  `lambda this_id: convert_to_go_value(vm, getter(object_instances[this_id]))`;
- `setterW s`: the `__build_variable` setter wrapper
  `lambda this_id, value: setter(object_instances[this_id], convert_from_go_value(value))`;
- `methodW f`: the `__build_method` wrapper
  `lambda this_id, *args: convert_to_go_value(vm, function(object_instances[this_id], *args))`;
- `ctorW mk`: the `add_constructor` wrapper
  `lambda this_id, *args: object_instances[this_id] = typ(*args)`.
A host callable that raises is an `Except.error` carrying `str(e)`. -/
inductive CallableEntry where
  | userFn (f : List PyVal → Except String PyVal)
  | getterW (g : PyVal → Except String PyVal)
  | setterW (s : PyVal → PyVal → Except String PyVal)
  | methodW (f : PyVal → List PyVal → Except String PyVal)
  | ctorW (mk : List PyVal → Except String PyVal)

/-- A `ClassVariable` as assembled by `__build_variable`. The dispatch
identifiers wired in by `BuildNewClassVariableWithGetter` and
`BuildNewClassVariableWithSetter` (compatibility-shim calls whose Go side is
outside `src/`) are recorded in `getterId`/`setterId`; modelled from the
spec: each variable entry references a CallableEntry for its accessor. -/
structure ClassVariable where
  Name : String := ""
  Value : GoVal := .GNothing
  Locked : Bool := false
  getterId : Option String := none
  setterId : Option String := none

/-- A `ClassMethod` as assembled by `__build_method`/`add_constructor`.
`Argc` is a Python value that is either an int or `None` (the
`argc is None and ... or argc` idiom can produce `None`); the dispatch
identifier wired in by `BuildNewClassMethod` is recorded in `dispatchId`. -/
structure ClassMethod where
  Name : String := ""
  Argc : Option Int := none
  dispatchId : Option String := none

/-- A `ClassDefinition` under construction (`NewClassDefinition` starts all
tables empty). -/
structure ClassDefB where
  Name : String := ""
  PublicVariables : List (String × ClassVariable) := []
  PrivateVariables : List (String × ClassVariable) := []
  SharedVariables : List (String × ClassVariable) := []
  PublicMethods : List (String × ClassMethod) := []
  PrivateMethods : List (String × ClassMethod) := []

/-- The module-level mutable state of `olol.py` plus the observable effects
on the external VM. `vm_classes` is the set `IsClassDefined` consults (a
class name is added when `DefineClass` runs); `submitted_defs` records every
`DefineClass` submission; `vm_functions` records every `DefineFunction`
registration as (identifier, name, declared argc); `next_handle` backs
`NewObjectInstance`; `next_uuid` backs `uuid4`. -/
structure BridgeState where
  defined_functions : List (String × CallableEntry) := []
  object_instances : List (Int × PyVal) := []
  vm_classes : List String := []
  submitted_defs : List ClassDefB := []
  vm_functions : List (String × String × Option Int) := []
  next_handle : Int := 0
  next_uuid : Nat := 0

/-- The empty initial state. -/
def st0 : BridgeState := {}

/-- `str(uuid.uuid4())`, modelled as a counter-derived fresh string. -/
def uuidStr (n : Nat) : String := "uuid-" ++ toString n

/-- A member of `dir(python_class)`: either a non-callable attribute or a
callable with its `inspect.signature` parameter count (including `self`),
its `inspect.iscoroutinefunction` flag, and its behaviour on an instance
and argument list. -/
inductive Member where
  | attrM
  | methodM (paramCount : Nat) (isCoroutine : Bool)
      (f : PyVal → List PyVal → Except String PyVal)

/-- Whether a `dir` entry is a non-callable attribute
(`not callable(getattr(python_class, name))`). -/
def isAttrMember : Member → Bool
  | .attrM => true
  | .methodM _ _ _ => false

/-- A host type as the class builder introspects it: `name` is `__name__`,
`dirList` is `dir(python_class)` (every attribute name, dunders included,
in dir order) with each entry classified, `initParamCount` is
`len(inspect.signature(__init__).parameters)` (including `self`),
`initVarArgs` the number of VAR_POSITIONAL/VAR_KEYWORD parameters of
`__init__`, and `new` is instantiation `typ(*args)`. -/
structure PyClass where
  name : String
  dirList : List (String × Member)
  initParamCount : Nat
  initVarArgs : Nat
  new : List PyVal → Except String PyVal

/-- The Python type environment: `type(value).__name__ ↦ the type`. Kept
outside the state (class objects are static data of the host program). -/
def ClassEnv : Type := String → Option PyClass

/-- The empty type environment. -/
def envEmpty : ClassEnv := fun _ => none

/-- The Python default-argument idiom in `define_function`:
`argc = argc is None and len(signature(function).parameters) or argc`.
`and` returns its first falsy operand or its last operand, `or` its first
truthy operand or its last: with `argc` supplied the result is `argc`;
with `argc` omitted the result is the parameter count — unless that count
is 0, which is falsy, so the expression falls through to `argc`, i.e.
`None`. -/
def pyFnArgcDefault (argc : Option Int) (paramCount : Nat) : Option Int :=
  match argc with
  | some a => some a
  | none => if (paramCount : Int) ≠ 0 then some (paramCount : Int) else none

/-- The same idiom in `__build_method`:
`argc = argc is None and len(signature(function).parameters) - 1 or argc`:
with `argc` omitted the result is the parameter count minus one (dropping
the instance parameter) — unless that difference is 0 (a method taking only
`self`), in which case the result is `None`. -/
def pyMethodArgcDefault (argc : Option Int) (paramCount : Nat) : Option Int :=
  match argc with
  | some a => some a
  | none => if (paramCount : Int) - 1 ≠ 0 then some ((paramCount : Int) - 1) else none

/-- Conversion of a class variable's default value.
`__build_variable` runs `class_variable.Value = convert_to_go_value(self.__vm, value)`;
within this repository the `value` argument is always the default `None`
(see `define_class`, which never passes a value), so only the stateless
branches of the codec are reachable here. The conversion is specialised to
those branches to keep the class builder non-recursive with the full
stateful codec; the sequence/mapping/object branches are never taken from
this repository's call sites and are mapped to Nothing. -/
def convertDefaultValue : PyVal → GoVal
  | .VNone => .GNothing
  | .VInt n => .GInt n
  | .VBool b => .GInt (if b then 1 else 0)
  | .VFloat f => .GDouble f
  | .VStr s => .GString s
  | .VGoValue g => g
  | _ => .GNothing

/-- `ClassBuilder.__build_variable`: builds the `ClassVariable`, and for the
getter and the setter (in that order) generates a fresh identifier, stores
the wrapper in `defined_functions` under it, and only then wires the
identifier into the variable via the compatibility shim. -/
def build_variable (st : BridgeState) (name : String) (value : PyVal) (locked : Bool)
    (getter : Option (PyVal → Except String PyVal))
    (setter : Option (PyVal → PyVal → Except String PyVal)) :
    BridgeState × ClassVariable :=
  let v0 : ClassVariable := { Name := name, Value := convertDefaultValue value, Locked := locked }
  let r1 : BridgeState × ClassVariable :=
    match getter with
    | some g =>
      let uid := uuidStr st.next_uuid
      ({ st with next_uuid := st.next_uuid + 1,
                 defined_functions := st.defined_functions ++ [(uid, .getterW g)] },
       { v0 with getterId := some uid })
    | none => (st, v0)
  match setter with
  | some s =>
    let uid := uuidStr r1.1.next_uuid
    ({ r1.1 with next_uuid := r1.1.next_uuid + 1,
                 defined_functions := r1.1.defined_functions ++ [(uid, .setterW s)] },
     { r1.2 with setterId := some uid })
  | none => r1

/-- `ClassBuilder.add_public_variable` (value and locked flag left at their
defaults, as every call site in this repository does). -/
def add_public_variable (st : BridgeState) (cd : ClassDefB) (name : String)
    (getter : Option (PyVal → Except String PyVal))
    (setter : Option (PyVal → PyVal → Except String PyVal)) :
    BridgeState × ClassDefB :=
  let r := build_variable st name .VNone false getter setter
  (r.1, { cd with PublicVariables := updateA cd.PublicVariables name r.2 })

/-- `ClassBuilder.__build_method`: computes `Argc` via the default idiom,
generates a fresh identifier, stores the method wrapper under it, builds the
`ClassMethod` and wires the identifier in via `BuildNewClassMethod`. -/
def build_method (st : BridgeState) (name : String) (paramCount : Nat)
    (f : PyVal → List PyVal → Except String PyVal) (argc : Option Int) :
    BridgeState × ClassMethod :=
  let argcV := pyMethodArgcDefault argc paramCount
  let uid := uuidStr st.next_uuid
  ({ st with next_uuid := st.next_uuid + 1,
             defined_functions := st.defined_functions ++ [(uid, .methodW f)] },
   { Name := name, Argc := argcV, dispatchId := some uid })

/-- `ClassBuilder.add_public_method`. -/
def add_public_method (st : BridgeState) (cd : ClassDefB) (name : String)
    (paramCount : Nat) (f : PyVal → List PyVal → Except String PyVal)
    (argc : Option Int) : BridgeState × ClassDefB :=
  let r := build_method st name paramCount f argc
  (r.1, { cd with PublicMethods := updateA cd.PublicMethods name r.2 })

/-- `ClassBuilder.add_public_coroutine`: computes `argc = len(parameters) - 1`
and registers a wrapper through `__build_method`, passing that argc
explicitly. The wrapper runs the coroutine on the host event loop from a
dedicated worker thread and blocks on the future; the relayed outcome is the
coroutine's own result or exception, so the wrapper is modelled as the
member's behaviour itself. -/
def add_public_coroutine (st : BridgeState) (cd : ClassDefB) (name : String)
    (paramCount : Nat) (f : PyVal → List PyVal → Except String PyVal) :
    BridgeState × ClassDefB :=
  let argc : Int := (paramCount : Int) - 1
  let r := build_method st name paramCount f (some argc)
  (r.1, { cd with PublicMethods := updateA cd.PublicMethods name r.2 })

/-- `ClassBuilder.add_constructor`: reads `__init__`'s parameter count,
subtracts one for `self` and one per VAR_POSITIONAL/VAR_KEYWORD parameter,
generates a fresh identifier, stores the constructor wrapper under it
(the wrapper instantiates the type and stores the instance in
`object_instances` under the handle it was called with), and files the
resulting `ClassMethod` under the class name. -/
def add_constructor (st : BridgeState) (cd : ClassDefB) (c : PyClass) :
    BridgeState × ClassDefB :=
  let argc : Int := (c.initParamCount : Int) - 1 - (c.initVarArgs : Int)
  let uid := uuidStr st.next_uuid
  let st1 := { st with next_uuid := st.next_uuid + 1,
                       defined_functions := st.defined_functions ++ [(uid, .ctorW c.new)] }
  let m : ClassMethod := { Name := c.name, Argc := some argc, dispatchId := some uid }
  (st1, { cd with PublicMethods := updateA cd.PublicMethods c.name m })

/-- Python `name.startswith("_")`, the public-member filter of both
`define_class` loops. -/
def startsWithUnderscore (s : String) : Bool :=
  match s.data with
  | [] => false
  | c :: _ => c == '_'

/-- The last entry of `dir(python_class)` — the value the loop variable
`attr_name` of `define_class`'s attribute loop holds once that loop has
finished, which is when the getter/setter lambdas (which close over
`attr_name`, not over its value) are eventually invoked. -/
def dirLast (dirList : List (String × Member)) : String :=
  ((dirList.map Prod.fst).getLast?).getD ""

/-- The body of `ObjectiveLOLVM.define_class` up to (but not including) the
final `DefineClass` submission: checks `IsClassDefined` (and discards the
result — the branch body is `pass`), sets the name, adds the constructor,
then for every public non-callable attribute adds a public variable whose
getter and setter are the lambdas
`lambda self: getattr(self, attr_name)` and
`lambda self, value: setattr(self, attr_name, value)` — both closing over
the loop variable `attr_name`, which by invocation time holds the last
entry of `dir(python_class)` — and finally, for every public callable
except the one named like the class, adds a public coroutine or method. -/
def buildClass (st : BridgeState) (c : PyClass) : BridgeState × ClassDefB :=
  let _ := st.vm_classes.contains c.name
  let cd0 : ClassDefB := { Name := c.name }
  let acc1 := add_constructor st cd0 c
  let lastAttr := dirLast c.dirList
  let acc2 := c.dirList.foldl
    (fun acc nm =>
      if (!startsWithUnderscore nm.1) && isAttrMember nm.2 then
        add_public_variable acc.1 acc.2 nm.1
          (some fun self => pyGetAttr self lastAttr)
          (some fun self v => pySetAttr self lastAttr v)
      else acc)
    acc1
  c.dirList.foldl
    (fun acc nm =>
      match nm.2 with
      | .methodM pc co f =>
        if (!startsWithUnderscore nm.1) && nm.1 != c.name then
          if co then add_public_coroutine acc.1 acc.2 nm.1 pc f
          else add_public_method acc.1 acc.2 nm.1 pc f none
        else acc
      | .attrM => acc)
    acc2

/-- The external `DefineClass` service call. Modelled from the spec: the VM
records the submitted definition and marks the class name defined. -/
def vmDefineClass (st : BridgeState) (cd : ClassDefB) : BridgeState :=
  { st with submitted_defs := st.submitted_defs ++ [cd],
            vm_classes := st.vm_classes ++ [cd.Name] }

/-- `ObjectiveLOLVM.define_class`: builds the definition and submits it.
The `IsClassDefined` early check happens inside `buildClass`; its result is
discarded, so the build and the submission run unconditionally. -/
def define_class (st : BridgeState) (c : PyClass) : BridgeState :=
  let r := buildClass st c
  vmDefineClass r.1 r.2

mutual
/-- `convert_to_go_value` of `olol.py`, with its branches in source order.
`isinstance(value, int)` is true for Python booleans (bool subclasses int),
so a boolean reaches the `WrapInt` branch first and is wrapped as the
integer 1 or 0 — the later `WrapBool` branch is unreachable. A `GoValue`
passes through; lists and tuples become a slice of recursively converted
elements; dicts become a string-keyed map of recursively converted values
(a Python dict iterates distinct keys, so each `map[k] = v` insertion is to
a fresh key and is modelled as appending the entry). Any other value is an
opaque object: its type is registered through `define_class`, a fresh
instance handle is allocated via `NewObjectInstance(type(value).__name__)`,
and the instance is stored in `object_instances` under the handle's ID. -/
def convert_to_go_value (env : ClassEnv) (st : BridgeState) : PyVal → GoVal × BridgeState
  | .VNone => (.GNothing, st)
  | .VInt n => (.GInt n, st)
  | .VBool b => (.GInt (if b then 1 else 0), st)
  | .VFloat f => (.GDouble f, st)
  | .VStr s => (.GString s, st)
  | .VGoValue g => (g, st)
  | .VList xs =>
    let r := convertElems env st xs
    (.GSlice r.1, r.2)
  | .VTuple xs =>
    let r := convertElems env st xs
    (.GSlice r.1, r.2)
  | .VDict ps =>
    let r := convertEntries env st ps
    (.GMap r.1, r.2)
  | .VObj oid cls attrs =>
    let st1 := match env cls with
               | some c => define_class st c
               | none => st
    let h := st1.next_handle
    let st2 := { st1 with
      next_handle := h + 1,
      object_instances := updateA st1.object_instances h (.VObj oid cls attrs) }
    (.GHandle h, st2)

/-- The `for v in value: slice.append(convert_to_go_value(vm, v))` loop. -/
def convertElems (env : ClassEnv) (st : BridgeState) : List PyVal → List GoVal × BridgeState
  | [] => ([], st)
  | x :: xs =>
    let r1 := convert_to_go_value env st x
    let r2 := convertElems env r1.2 xs
    (r1.1 :: r2.1, r2.2)

/-- The `for k, v in value.items(): map[k] = convert_to_go_value(vm, v)` loop. -/
def convertEntries (env : ClassEnv) (st : BridgeState) :
    List (String × PyVal) → List (String × GoVal) × BridgeState
  | [] => ([], st)
  | (k, v) :: ps =>
    let r1 := convert_to_go_value env st v
    let r2 := convertEntries env r1.2 ps
    ((k, r1.1) :: r2.1, r2.2)
end

/-- The handle ID a wrapper receives as its `this_id` argument through the
dispatch payload. -/
def asKey : PyVal → Option Int
  | .VInt n => some n
  | _ => none

/-- Invocation of a stored callable on the JSON-decoded argument list, i.e.
`fn(*args)` inside `gopy_wrapper`. Wrapper shapes unpack `this_id` (and the
setter's `value`) from the argument list; a wrong argument count raises a
TypeError, an unknown handle raises a KeyError — both become errors the
adapter catches. Getter and method wrappers convert their result themselves
(their return value is a `GoValue` object); the setter and constructor
wrappers return `None` after mutating the object or the registry. -/
def runCallable (env : ClassEnv) (e : CallableEntry) (args : List PyVal)
    (st : BridgeState) : Except String PyVal × BridgeState :=
  match e with
  | .userFn f => (f args, st)
  | .getterW g =>
    match args with
    | [tid] =>
      match asKey tid with
      | some k =>
        match lookupA st.object_instances k with
        | some inst =>
          match g inst with
          | .ok v =>
            let r := convert_to_go_value env st v
            (.ok (.VGoValue r.1), r.2)
          | .error msg => (.error msg, st)
        | none => (.error ("KeyError: " ++ toString k), st)
      | none => (.error "KeyError: this_id", st)
    | _ => (.error "TypeError: argument count", st)
  | .setterW s =>
    match args with
    | [tid, value] =>
      match asKey tid with
      | some k =>
        match lookupA st.object_instances k with
        | some inst =>
          match s inst (convert_from_py value) with
          | .ok inst2 =>
            (.ok .VNone, { st with object_instances := updateA st.object_instances k inst2 })
          | .error msg => (.error msg, st)
        | none => (.error ("KeyError: " ++ toString k), st)
      | none => (.error "KeyError: this_id", st)
    | _ => (.error "TypeError: argument count", st)
  | .methodW f =>
    match args with
    | tid :: rest =>
      match asKey tid with
      | some k =>
        match lookupA st.object_instances k with
        | some inst =>
          match f inst rest with
          | .ok v =>
            let r := convert_to_go_value env st v
            (.ok (.VGoValue r.1), r.2)
          | .error msg => (.error msg, st)
        | none => (.error ("KeyError: " ++ toString k), st)
      | none => (.error "KeyError: this_id", st)
    | [] => (.error "TypeError: argument count", st)
  | .ctorW mk =>
    match args with
    | tid :: rest =>
      match asKey tid with
      | some k =>
        match mk rest with
        | .ok inst =>
          (.ok .VNone, { st with object_instances := updateA st.object_instances k inst })
        | .error msg => (.error msg, st)
      | none => (.error "KeyError: this_id", st)
    | [] => (.error "TypeError: argument count", st)

/-- The shape of the adapter's reply: the JSON object
`{"result": ..., "error": ...}`, with the result kept as the VM value it
serialises (the JSON text itself is the boundary encoding and carries
exactly this pair, cf. `serialize_go_value`). -/
structure Payload where
  result : Option GoVal
  error : Option String

/-- `gopy_wrapper` of `olol.py` on an already-decoded argument list
(`json.loads` of a payload produced by the boundary's own encoder
succeeds): inside the `try` block it looks up `defined_functions[id]` — an
unknown identifier raises a KeyError that the `except` catches — invokes
the callable, and returns `{"result": convert_to_go_value(vm, result),
"error": None}`; any exception escaping the callable (or the lookup)
produces `{"result": None, "error": str(e)}` instead. The adapter itself
always returns a payload. -/
def gopy_wrapper (env : ClassEnv) (fid : String) (args : List PyVal)
    (st : BridgeState) : Payload × BridgeState :=
  match lookupA st.defined_functions fid with
  | none => ({ result := none, error := some ("KeyError: " ++ fid) }, st)
  | some entry =>
    match runCallable env entry args st with
    | (.ok r, st1) =>
      let g := convert_to_go_value env st1 r
      ({ result := some g.1, error := none }, g.2)
    | (.error msg, st1) => ({ result := none, error := some msg }, st1)

/-- `ObjectiveLOLVM.define_function`: computes the declared arity via the
default idiom, generates a fresh identifier, stores `(self, function)` in
`defined_functions` under it, and registers the dispatch entry point with
the VM via `DefineFunction(unique_id, name, argc, gopy_wrapper)`.
`paramCount` is `len(inspect.signature(function).parameters)`. -/
def define_function (st : BridgeState) (name : String)
    (f : List PyVal → Except String PyVal) (paramCount : Nat)
    (argc : Option Int) : BridgeState :=
  let argcV := pyFnArgcDefault argc paramCount
  let uid := uuidStr st.next_uuid
  { st with next_uuid := st.next_uuid + 1,
            defined_functions := st.defined_functions ++ [(uid, .userFn f)],
            vm_functions := st.vm_functions ++ [(uid, name, argcV)] }

/-- The external VM service surface used by the facade's call paths.
Modelled from the spec: `Call(name, args)`, `CallMethod(handle, name, args)`
and `Execute(sourceText)` are implemented by the embedded VM outside
`src/`; each either returns a value or raises an error carrying a message. -/
structure VMOracle where
  Call : String → GoVal → Except String GoVal
  CallMethod : GoVal → String → GoVal → Except String GoVal
  Execute : String → Except String GoVal

/-- `ObjectiveLOLVM.call`: converts the `*args` tuple, invokes the VM, and
decodes the result; a VM error propagates to the caller. -/
def call (env : ClassEnv) (o : VMOracle) (st : BridgeState) (name : String)
    (args : List PyVal) : Except String PyVal × BridgeState :=
  let ga := convert_to_go_value env st (.VTuple args)
  match o.Call name ga.1 with
  | .ok r => (.ok (convert_from_go_value r), ga.2)
  | .error e => (.error e, ga.2)

/-- `ObjectiveLOLVM.call_async`: converts the `*args` tuple (before the
worker thread is spawned), then the worker runs `Call` and fulfils the
future with `convert_from_go_value(result)` or rejects it with the raised
exception; `await asyncio.wrap_future` relays that outcome. The value is
the outcome the awaiting caller observes. -/
def call_async (env : ClassEnv) (o : VMOracle) (st : BridgeState) (name : String)
    (args : List PyVal) : Except String PyVal × BridgeState :=
  let ga := convert_to_go_value env st (.VTuple args)
  let outcome : Except String PyVal :=
    match o.Call name ga.1 with
    | .ok r => .ok (convert_from_go_value r)
    | .error e => .error e
  (outcome, ga.2)

/-- `ObjectiveLOLVM.call_method`. -/
def call_method (env : ClassEnv) (o : VMOracle) (st : BridgeState)
    (receiver : GoVal) (name : String) (args : List PyVal) :
    Except String PyVal × BridgeState :=
  let ga := convert_to_go_value env st (.VTuple args)
  match o.CallMethod receiver name ga.1 with
  | .ok r => (.ok (convert_from_go_value r), ga.2)
  | .error e => (.error e, ga.2)

/-- `ObjectiveLOLVM.call_method_async`: same worker/future relay as
`call_async`, around `CallMethod`. -/
def call_method_async (env : ClassEnv) (o : VMOracle) (st : BridgeState)
    (receiver : GoVal) (name : String) (args : List PyVal) :
    Except String PyVal × BridgeState :=
  let ga := convert_to_go_value env st (.VTuple args)
  let outcome : Except String PyVal :=
    match o.CallMethod receiver name ga.1 with
    | .ok r => .ok (convert_from_go_value r)
    | .error e => .error e
  (outcome, ga.2)

/-- `ObjectiveLOLVM.execute`: returns `self.__vm.Execute(code)` unchanged
(no decoding); a VM error propagates. -/
def execute (o : VMOracle) (code : String) : Except String GoVal :=
  o.Execute code

/-- `ObjectiveLOLVM.execute_async`: the worker runs `Execute(code)` and
fulfils the future with the result or rejects it with the raised
exception. -/
def execute_async (o : VMOracle) (code : String) : Except String GoVal :=
  match o.Execute code with
  | .ok r => .ok r
  | .error e => .error e

namespace V2

/-- Python `"%s" % type(value)` names the value's runtime type; the model
keeps the type's name itself (Python renders it inside a `class` wrapper). -/
def typeName : PyVal → String
  | .VNone => "NoneType"
  | .VBool _ => "bool"
  | .VInt _ => "int"
  | .VFloat _ => "float"
  | .VStr _ => "str"
  | .VGoValue _ => "GoValue"
  | .VList _ => "list"
  | .VTuple _ => "tuple"
  | .VDict _ => "dict"
  | .VObj _ cls _ => cls

mutual
/-- `convert_to_go_value` of `objectivelol.py`: branches in source order —
int (which captures booleans), float, str, the unreachable bool branch,
`GoValue` pass-through, list/tuple, dict — and, for anything else,
`raise ValueError("Unsupported argument type %s" % type(value))`. This
codec has no `None` branch and no object fallback: both fall through to
the ValueError. -/
def convert_to_go_value : PyVal → Except String GoVal
  | .VInt n => .ok (.GInt n)
  | .VBool b => .ok (.GInt (if b then 1 else 0))
  | .VFloat f => .ok (.GDouble f)
  | .VStr s => .ok (.GString s)
  | .VGoValue g => .ok g
  | .VList xs =>
    match convElems xs with
    | .ok gs => .ok (.GSlice gs)
    | .error e => .error e
  | .VTuple xs =>
    match convElems xs with
    | .ok gs => .ok (.GSlice gs)
    | .error e => .error e
  | .VDict ps =>
    match convEntries ps with
    | .ok m => .ok (.GMap m)
    | .error e => .error e
  | v => .error ("Unsupported argument type " ++ typeName v)

/-- Recursive conversion of sequence elements (an element's ValueError
propagates out of the loop). -/
def convElems : List PyVal → Except String (List GoVal)
  | [] => .ok []
  | x :: xs =>
    match convert_to_go_value x with
    | .ok g =>
      match convElems xs with
      | .ok gs => .ok (g :: gs)
      | .error e => .error e
    | .error e => .error e

/-- Recursive conversion of mapping values. -/
def convEntries : List (String × PyVal) → Except String (List (String × GoVal))
  | [] => .ok []
  | (k, v) :: ps =>
    match convert_to_go_value v with
    | .ok g =>
      match convEntries ps with
      | .ok m => .ok ((k, g) :: m)
      | .error e => .error e
    | .error e => .error e
end

/-- The shapes the `objectivelol.py` codec classifies: primitives (via the
int/float/str branches, booleans included through the int branch), handles,
sequences and mappings. `None` and opaque objects match no branch. -/
def classifiable : PyVal → Bool
  | .VInt _ => true
  | .VBool _ => true
  | .VFloat _ => true
  | .VStr _ => true
  | .VGoValue _ => true
  | .VList _ => true
  | .VTuple _ => true
  | .VDict _ => true
  | .VNone => false
  | .VObj _ _ _ => false

end V2

/-! Statement helpers and shared lemmas. -/

/-- The primitive host values other than `None`. -/
def isPrimNonNone : PyVal → Bool
  | .VBool _ => true
  | .VInt _ => true
  | .VFloat _ => true
  | .VStr _ => true
  | _ => false

mutual
/-- Values built from primitives (the null sentinel included) by nesting
lists, tuples and string-keyed dicts — the inputs claim C4 ranges over. -/
def isTree : PyVal → Bool
  | .VNone => true
  | .VBool _ => true
  | .VInt _ => true
  | .VFloat _ => true
  | .VStr _ => true
  | .VList xs => isTreeL xs
  | .VTuple xs => isTreeL xs
  | .VDict ps => isTreeE ps
  | _ => false

/-- Every element is a tree. -/
def isTreeL : List PyVal → Bool
  | [] => true
  | x :: xs => isTree x && isTreeL xs

/-- Every mapping value is a tree. -/
def isTreeE : List (String × PyVal) → Bool
  | [] => true
  | (_, v) :: ps => isTree v && isTreeE ps
end

mutual
/-- The value `convert_from_go_value(convert_to_go_value(vm, v))` produces
on a tree: primitives other than `None` survive except that a boolean comes
back as the integer 1/0; `None` comes back as the Nothing `GoValue` itself;
lists and tuples come back as lists of round-tripped elements in order;
dicts keep their entries with round-tripped values. -/
def roundTripped : PyVal → PyVal
  | .VNone => .VGoValue .GNothing
  | .VBool b => .VInt (if b then 1 else 0)
  | .VInt n => .VInt n
  | .VFloat f => .VFloat f
  | .VStr s => .VStr s
  | .VList xs => .VList (roundTrippedL xs)
  | .VTuple xs => .VList (roundTrippedL xs)
  | .VDict ps => .VDict (roundTrippedE ps)
  | v => v

/-- Elementwise round trip. -/
def roundTrippedL : List PyVal → List PyVal
  | [] => []
  | x :: xs => roundTripped x :: roundTrippedL xs

/-- Valuewise round trip. -/
def roundTrippedE : List (String × PyVal) → List (String × PyVal)
  | [] => []
  | (k, v) :: ps => (k, roundTripped v) :: roundTrippedE ps
end

mutual
/-- The VM value the codec produces on a tree (where the conversion is
independent of the bridge state). -/
def encTree : PyVal → GoVal
  | .VNone => .GNothing
  | .VBool b => .GInt (if b then 1 else 0)
  | .VInt n => .GInt n
  | .VFloat f => .GDouble f
  | .VStr s => .GString s
  | .VList xs => .GSlice (encTreeL xs)
  | .VTuple xs => .GSlice (encTreeL xs)
  | .VDict ps => .GMap (encTreeE ps)
  | _ => .GNothing

/-- Elementwise tree encoding. -/
def encTreeL : List PyVal → List GoVal
  | [] => []
  | x :: xs => encTree x :: encTreeL xs

/-- Valuewise tree encoding. -/
def encTreeE : List (String × PyVal) → List (String × GoVal)
  | [] => []
  | (k, v) :: ps => (k, encTree v) :: encTreeE ps
end

theorem roundTrippedL_eq_map : (xs : List PyVal) → roundTrippedL xs = xs.map roundTripped
  | [] => rfl
  | x :: xs => by simp [roundTrippedL, roundTrippedL_eq_map xs]

theorem roundTrippedE_eq_map : (ps : List (String × PyVal)) →
    roundTrippedE ps = ps.map (fun kv => (kv.1, roundTripped kv.2))
  | [] => rfl
  | (k, v) :: ps => by simp [roundTrippedE, roundTrippedE_eq_map ps]

mutual
/-- On a tree, the stateful codec returns the pure encoding and leaves the
bridge state untouched (no branch of the codec reaches the object fallback). -/
theorem convert_tree_pure (env : ClassEnv) : (v : PyVal) → (st : BridgeState) →
    isTree v = true → convert_to_go_value env st v = (encTree v, st)
  | .VNone, _, _ => rfl
  | .VBool _, _, _ => rfl
  | .VInt _, _, _ => rfl
  | .VFloat _, _, _ => rfl
  | .VStr _, _, _ => rfl
  | .VList xs, st, h => by
    have hx := convert_tree_pureL env xs st (by simpa [isTree] using h)
    simp [convert_to_go_value, encTree, hx]
  | .VTuple xs, st, h => by
    have hx := convert_tree_pureL env xs st (by simpa [isTree] using h)
    simp [convert_to_go_value, encTree, hx]
  | .VDict ps, st, h => by
    have hx := convert_tree_pureE env ps st (by simpa [isTree] using h)
    simp [convert_to_go_value, encTree, hx]

theorem convert_tree_pureL (env : ClassEnv) : (xs : List PyVal) → (st : BridgeState) →
    isTreeL xs = true → convertElems env st xs = (encTreeL xs, st)
  | [], _, _ => rfl
  | x :: xs, st, h => by
    have hh := h
    simp [isTreeL, Bool.and_eq_true] at hh
    have e1 := convert_tree_pure env x st hh.1
    have e2 := convert_tree_pureL env xs st hh.2
    simp [convertElems, e1, e2, encTreeL]

theorem convert_tree_pureE (env : ClassEnv) : (ps : List (String × PyVal)) → (st : BridgeState) →
    isTreeE ps = true → convertEntries env st ps = (encTreeE ps, st)
  | [], _, _ => rfl
  | (k, v) :: ps, st, h => by
    have hh := h
    simp [isTreeE, Bool.and_eq_true] at hh
    have e1 := convert_tree_pure env v st hh.1
    have e2 := convert_tree_pureE env ps st hh.2
    simp [convertEntries, e1, e2, encTreeE]
end

mutual
/-- Decoding the pure tree encoding yields the round-tripped value. -/
theorem decode_encTree : (v : PyVal) → isTree v = true →
    convert_from_go_value (encTree v) = roundTripped v
  | .VNone, _ => rfl
  | .VBool b, _ => by cases b <;> rfl
  | .VInt _, _ => rfl
  | .VFloat _, _ => rfl
  | .VStr _, _ => rfl
  | .VList xs, h => by
    have hx := decode_encTreeL xs (by simpa [isTree] using h)
    simp [encTree, convert_from_go_value, roundTripped, hx]
  | .VTuple xs, h => by
    have hx := decode_encTreeL xs (by simpa [isTree] using h)
    simp [encTree, convert_from_go_value, roundTripped, hx]
  | .VDict ps, h => by
    have hx := decode_encTreeE ps (by simpa [isTree] using h)
    simp [encTree, convert_from_go_value, roundTripped, hx]

theorem decode_encTreeL : (xs : List PyVal) → isTreeL xs = true →
    fromGoList (encTreeL xs) = roundTrippedL xs
  | [], _ => rfl
  | x :: xs, h => by
    have hh := h
    simp [isTreeL, Bool.and_eq_true] at hh
    have e1 := decode_encTree x hh.1
    have e2 := decode_encTreeL xs hh.2
    simp [encTreeL, fromGoList, roundTrippedL, e1, e2]

theorem decode_encTreeE : (ps : List (String × PyVal)) → isTreeE ps = true →
    fromGoEntries (encTreeE ps) = roundTrippedE ps
  | [], _ => rfl
  | (k, v) :: ps, h => by
    have hh := h
    simp [isTreeE, Bool.and_eq_true] at hh
    have e1 := decode_encTree v hh.1
    have e2 := decode_encTreeE ps hh.2
    simp [encTreeE, fromGoEntries, roundTrippedE, e1, e2]
end

theorem lookupA_append_isSome {κ α : Type} [BEq κ] {l : List (κ × α)} {k : κ}
    (l2 : List (κ × α)) (h : (lookupA l k).isSome = true) :
    (lookupA (l ++ l2) k).isSome = true := by
  induction l with
  | nil => simp [lookupA] at h
  | cons a l ih =>
    by_cases hk : (a.1 == k) = true
    · simp [lookupA, hk] at h ⊢
    · simp [lookupA, hk] at h ⊢
      exact ih h

theorem lookupA_append_self {κ α : Type} [BEq κ] [LawfulBEq κ]
    {l : List (κ × α)} {k : κ} (v : α) (h : lookupA l k = none) :
    lookupA (l ++ [(k, v)]) k = some v := by
  induction l with
  | nil => simp [lookupA]
  | cons a l ih =>
    by_cases hk : (a.1 == k) = true
    · simp [lookupA, hk] at h
    · simp [lookupA, hk] at h ⊢
      exact ih h

theorem lookupA_append_self_isSome {κ α : Type} [BEq κ] [LawfulBEq κ]
    (l : List (κ × α)) (k : κ) (v : α) :
    (lookupA (l ++ [(k, v)]) k).isSome = true := by
  induction l with
  | nil => simp [lookupA]
  | cons a l ih =>
    by_cases hk : (a.1 == k) = true
    · simp [lookupA, hk]
    · simp [lookupA, hk]
      exact ih

theorem lookupA_updateA_self {κ α : Type} [BEq κ] [LawfulBEq κ]
    (l : List (κ × α)) (k : κ) (v : α) :
    lookupA (updateA l k v) k = some v := by
  induction l with
  | nil => simp [updateA, lookupA]
  | cons a l ih =>
    by_cases hk : (a.1 == k) = true
    · simp [updateA, lookupA, hk]
    · simp [updateA, lookupA, hk]
      exact ih

/-- Fold preservation: a property stable under every step holds for the
fold result. -/
theorem foldl_preserve {α β : Type} (p : β → Prop) (f : β → α → β)
    (hf : ∀ b a, p b → p (f b a)) : (l : List α) → (b : β) → p b → p (List.foldl f b l)
  | [], _, h => h
  | a :: l, b, h => foldl_preserve p f hf l (f b a) (hf b a h)

theorem add_public_variable_Name (st : BridgeState) (cd : ClassDefB) (name : String)
    (g : Option (PyVal → Except String PyVal))
    (s : Option (PyVal → PyVal → Except String PyVal)) :
    (add_public_variable st cd name g s).2.Name = cd.Name := rfl

theorem add_public_method_Name (st : BridgeState) (cd : ClassDefB) (name : String)
    (pc : Nat) (f : PyVal → List PyVal → Except String PyVal) (argc : Option Int) :
    (add_public_method st cd name pc f argc).2.Name = cd.Name := rfl

theorem add_public_coroutine_Name (st : BridgeState) (cd : ClassDefB) (name : String)
    (pc : Nat) (f : PyVal → List PyVal → Except String PyVal) :
    (add_public_coroutine st cd name pc f).2.Name = cd.Name := rfl

/-- The built `ClassDefinition` carries the class's `__name__`. -/
theorem buildClass_Name (st : BridgeState) (c : PyClass) :
    (buildClass st c).2.Name = c.name := by
  unfold buildClass
  refine foldl_preserve (fun acc : BridgeState × ClassDefB => acc.2.Name = c.name) _ ?_ _ _
    (foldl_preserve (fun acc : BridgeState × ClassDefB => acc.2.Name = c.name) _ ?_ _ _ ?_)
  · intro b a hb
    rcases a with ⟨n, m⟩
    cases m with
    | attrM => exact hb
    | methodM pc co f =>
      dsimp only
      split
      · cases co
        · rw [if_neg (by simp), add_public_method_Name]; exact hb
        · rw [if_pos rfl, add_public_coroutine_Name]; exact hb
      · exact hb
  · intro b a hb
    dsimp only
    split
    · rw [add_public_variable_Name]; exact hb
    · exact hb
  · rfl

/-- The dispatch identifiers a class variable references. -/
def varIds (v : ClassVariable) : List String :=
  v.getterId.toList ++ v.setterId.toList

/-- The dispatch identifier a class method references. -/
def methodIds (m : ClassMethod) : List String :=
  m.dispatchId.toList

/-- All identifiers referenced by the entries of a member table. -/
def idsOf {β : Type} (proj : β → List String) : List (String × β) → List String
  | [] => []
  | kv :: l => proj kv.2 ++ idsOf proj l

/-- Every dispatch identifier a `ClassDefinition` references, across all
five member tables. -/
def refIds (cd : ClassDefB) : List String :=
  idsOf varIds cd.PublicVariables ++ idsOf varIds cd.PrivateVariables ++
  idsOf varIds cd.SharedVariables ++ idsOf methodIds cd.PublicMethods ++
  idsOf methodIds cd.PrivateMethods

theorem mem_idsOf_updateA {β : Type} (proj : β → List String) :
    ∀ {l : List (String × β)} {k : String} {v : β} {fid : String},
    fid ∈ idsOf proj (updateA l k v) → fid ∈ idsOf proj l ∨ fid ∈ proj v := by
  intro l
  induction l with
  | nil =>
    intro k v fid h
    simp only [updateA, idsOf, List.append_nil] at h
    exact Or.inr h
  | cons a l ih =>
    intro k v fid h
    by_cases hk : (a.1 == k) = true
    · simp only [updateA, hk, if_true, idsOf, List.mem_append] at h
      rcases h with h1 | h2
      · exact Or.inr h1
      · exact Or.inl (by simp only [idsOf, List.mem_append]; exact Or.inr h2)
    · simp only [updateA, hk, if_false, Bool.false_eq_true, idsOf, List.mem_append] at h
      rcases h with h1 | h2
      · exact Or.inl (by simp only [idsOf, List.mem_append]; exact Or.inl h1)
      · rcases ih h2 with h3 | h4
        · exact Or.inl (by simp only [idsOf, List.mem_append]; exact Or.inr h3)
        · exact Or.inr h4

theorem refIds_update_pubvar {cd : ClassDefB} {name : String} {v : ClassVariable}
    {fid : String}
    (h : fid ∈ refIds { cd with PublicVariables := updateA cd.PublicVariables name v }) :
    fid ∈ refIds cd ∨ fid ∈ varIds v := by
  simp only [refIds, List.mem_append] at h ⊢
  rcases h with ((((h1 | h2) | h3) | h4) | h5)
  · rcases mem_idsOf_updateA varIds h1 with ha | hb <;> tauto
  all_goals tauto

theorem refIds_update_pubmeth {cd : ClassDefB} {name : String} {m : ClassMethod}
    {fid : String}
    (h : fid ∈ refIds { cd with PublicMethods := updateA cd.PublicMethods name m }) :
    fid ∈ refIds cd ∨ fid ∈ methodIds m := by
  simp only [refIds, List.mem_append] at h ⊢
  rcases h with ((((h1 | h2) | h3) | h4) | h5)
  · tauto
  · tauto
  · tauto
  · rcases mem_idsOf_updateA methodIds h4 with ha | hb <;> tauto
  · tauto

/-- `__build_variable` only appends to `defined_functions`. -/
theorem build_variable_df (st : BridgeState) (name : String) (value : PyVal)
    (locked : Bool) (g : Option (PyVal → Except String PyVal))
    (s : Option (PyVal → PyVal → Except String PyVal)) :
    ∃ extra, (build_variable st name value locked g s).1.defined_functions
      = st.defined_functions ++ extra := by
  cases g with
  | none =>
    cases s with
    | none => exact ⟨[], by simp [build_variable]⟩
    | some s => exact ⟨[(uuidStr st.next_uuid, .setterW s)], by simp [build_variable]⟩
  | some g =>
    cases s with
    | none => exact ⟨[(uuidStr st.next_uuid, .getterW g)], by simp [build_variable]⟩
    | some s =>
      exact ⟨[(uuidStr st.next_uuid, .getterW g), (uuidStr (st.next_uuid + 1), .setterW s)],
        by simp [build_variable]⟩

/-- Every identifier `__build_variable` wires into the variable has its
wrapper stored in `defined_functions` of the resulting state. -/
theorem build_variable_ids (st : BridgeState) (name : String) (value : PyVal)
    (locked : Bool) (g : Option (PyVal → Except String PyVal))
    (s : Option (PyVal → PyVal → Except String PyVal)) :
    ∀ fid ∈ varIds (build_variable st name value locked g s).2,
      (lookupA (build_variable st name value locked g s).1.defined_functions fid).isSome
        = true := by
  intro fid hmem
  cases g with
  | none =>
    cases s with
    | none => simp [build_variable, varIds] at hmem
    | some s =>
      simp only [build_variable, varIds] at hmem ⊢
      simp at hmem
      subst hmem
      exact lookupA_append_self_isSome _ _ _
  | some g =>
    cases s with
    | none =>
      simp only [build_variable, varIds] at hmem ⊢
      simp at hmem
      subst hmem
      exact lookupA_append_self_isSome _ _ _
    | some s =>
      simp only [build_variable, varIds] at hmem ⊢
      simp at hmem
      rcases hmem with h | h
      · subst h
        exact lookupA_append_isSome _ (lookupA_append_self_isSome _ _ _)
      · subst h
        exact lookupA_append_self_isSome _ _ _

/-- `__build_method` appends exactly the method wrapper. -/
theorem build_method_df (st : BridgeState) (name : String) (pc : Nat)
    (f : PyVal → List PyVal → Except String PyVal) (argc : Option Int) :
    (build_method st name pc f argc).1.defined_functions
      = st.defined_functions ++ [(uuidStr st.next_uuid, .methodW f)] := rfl

theorem build_method_ids (st : BridgeState) (name : String) (pc : Nat)
    (f : PyVal → List PyVal → Except String PyVal) (argc : Option Int) :
    ∀ fid ∈ methodIds (build_method st name pc f argc).2,
      (lookupA (build_method st name pc f argc).1.defined_functions fid).isSome = true := by
  intro fid hmem
  simp only [build_method, methodIds] at hmem ⊢
  simp at hmem
  subst hmem
  exact lookupA_append_self_isSome _ _ _

/-- The invariant claim C8 asserts, for a builder accumulator. -/
def GoodAcc (acc : BridgeState × ClassDefB) : Prop :=
  ∀ fid ∈ refIds acc.2, (lookupA acc.1.defined_functions fid).isSome = true

theorem add_public_variable_good (st : BridgeState) (cd : ClassDefB) (name : String)
    (g : Option (PyVal → Except String PyVal))
    (s : Option (PyVal → PyVal → Except String PyVal))
    (h : GoodAcc (st, cd)) : GoodAcc (add_public_variable st cd name g s) := by
  intro fid hmem
  have hmem2 : fid ∈ refIds cd ∨ fid ∈ varIds (build_variable st name .VNone false g s).2 :=
    refIds_update_pubvar hmem
  rcases hmem2 with hold | hnew
  · obtain ⟨extra, hdf⟩ := build_variable_df st name .VNone false g s
    show (lookupA (build_variable st name .VNone false g s).1.defined_functions fid).isSome
      = true
    rw [hdf]
    exact lookupA_append_isSome extra (h fid hold)
  · exact build_variable_ids st name .VNone false g s fid hnew

theorem add_public_method_good (st : BridgeState) (cd : ClassDefB) (name : String)
    (pc : Nat) (f : PyVal → List PyVal → Except String PyVal) (argc : Option Int)
    (h : GoodAcc (st, cd)) : GoodAcc (add_public_method st cd name pc f argc) := by
  intro fid hmem
  rcases refIds_update_pubmeth hmem with hold | hnew
  · show (lookupA (build_method st name pc f argc).1.defined_functions fid).isSome = true
    rw [build_method_df]
    exact lookupA_append_isSome _ (h fid hold)
  · exact build_method_ids st name pc f argc fid hnew

theorem add_public_coroutine_good (st : BridgeState) (cd : ClassDefB) (name : String)
    (pc : Nat) (f : PyVal → List PyVal → Except String PyVal)
    (h : GoodAcc (st, cd)) : GoodAcc (add_public_coroutine st cd name pc f) := by
  intro fid hmem
  rcases refIds_update_pubmeth hmem with hold | hnew
  · show (lookupA (build_method st name pc f
        (some ((pc : Int) - 1))).1.defined_functions fid).isSome = true
    rw [build_method_df]
    exact lookupA_append_isSome _ (h fid hold)
  · exact build_method_ids st name pc f (some ((pc : Int) - 1)) fid hnew

theorem add_constructor_good (st : BridgeState) (cd : ClassDefB) (c : PyClass)
    (h : GoodAcc (st, cd)) : GoodAcc (add_constructor st cd c) := by
  intro fid hmem
  rcases refIds_update_pubmeth hmem with hold | hnew
  · show (lookupA (st.defined_functions
        ++ [(uuidStr st.next_uuid, .ctorW c.new)]) fid).isSome = true
    exact lookupA_append_isSome _ (h fid hold)
  · simp only [add_constructor, methodIds] at hnew
    simp at hnew
    subst hnew
    exact lookupA_append_self_isSome _ _ _

/-- Every identifier referenced by the `ClassDefinition` the builder
produces has an entry in `defined_functions` of the state the builder
leaves behind. -/
theorem buildClass_good (st : BridgeState) (c : PyClass) :
    GoodAcc (buildClass st c) := by
  unfold buildClass
  refine foldl_preserve GoodAcc _ ?_ _ _ (foldl_preserve GoodAcc _ ?_ _ _ ?_)
  · intro b a hb
    rcases a with ⟨n, m⟩
    cases m with
    | attrM => exact hb
    | methodM pc co f =>
      dsimp only
      split
      · cases co
        · exact add_public_method_good b.1 b.2 n pc f none hb
        · exact add_public_coroutine_good b.1 b.2 n pc f hb
      · exact hb
  · intro b a hb
    dsimp only
    split
    · exact add_public_variable_good b.1 b.2 a.1 _ _ hb
    · exact hb
  · refine add_constructor_good st { Name := c.name } c ?_
    intro fid hmem
    simp [refIds, idsOf] at hmem

/-! Concrete fixtures used by individual claims. -/

/-- A two-argument host function `add(a, b) = a + b` on integers. -/
def addFn : List PyVal → Except String PyVal
  | [.VInt a, .VInt b] => .ok (.VInt (a + b))
  | _ => .error "TypeError: add"

/-- A host type with one public attribute and one public method, used to
observe `define_class` submissions. -/
def cC3 : PyClass :=
  { name := "Counter",
    dirList := [("increment", .methodM 1 false (fun s _ => .ok s)), ("value", .attrM)],
    initParamCount := 1, initVarArgs := 0,
    new := fun _ => .ok (.VObj 0 "Counter" [("value", .VInt 0)]) }

/-- A host type with the two public non-callable attributes `aaa` and
`bbb` (its `dir` holds them in sorted order). -/
def cC5 : PyClass :=
  { name := "CexC5",
    dirList := [("aaa", .attrM), ("bbb", .attrM)],
    initParamCount := 1, initVarArgs := 0,
    new := fun _ => .ok (.VObj 0 "CexC5" [("aaa", .VInt 0), ("bbb", .VInt 0)]) }

/-- The bridge state after defining `cC5`, with an instance stored under
handle 7 whose attributes are `aaa = 1`, `bbb = 2`. -/
def stC5 : BridgeState :=
  { define_class st0 cC5 with
    object_instances := [(7, .VObj 7 "CexC5" [("aaa", .VInt 1), ("bbb", .VInt 2)])] }

/-- A host type with a public attribute `size`, used to observe object
encoding. -/
def cBox : PyClass :=
  { name := "Box",
    dirList := [("size", .attrM)],
    initParamCount := 2, initVarArgs := 0,
    new := fun args => .ok (.VObj 1 "Box" [("size", args.headD .VNone)]) }

/-- A type environment containing `Box`. -/
def envC6 : ClassEnv := fun n => if n = "Box" then some cBox else none

/-- A host type with one public attribute and one public method, used to
exhibit the registered dispatch identifiers of a built definition. -/
def cC8 : PyClass :=
  { name := "Gadget",
    dirList := [("poke", .methodM 2 false (fun s _ => .ok s)), ("size", .attrM)],
    initParamCount := 1, initVarArgs := 0,
    new := fun _ => .ok (.VObj 0 "Gadget" [("size", .VInt 0)]) }

/-! Claim theorems. -/

/-- Claim C1, amended: for the primitives int, float, str and bool the
round trip `convert_from_go_value(convert_to_go_value(vm, v))` returns a
value Python-equal to `v` (a boolean comes back as the integer 1/0, which
Python `==` identifies with it); for `None` the round trip does not return
`None`: the encoding is the Nothing value and `convert_from_go_value` has
no NOTHIN branch, so decoding returns that `GoValue` itself. -/
theorem C1_primitive_roundtrip (env : ClassEnv) (st : BridgeState) :
    (∀ v, isPrimNonNone v = true →
      pyEq (convert_from_go_value (convert_to_go_value env st v).1) v = true) ∧
    convert_from_go_value (convert_to_go_value env st .VNone).1 = .VGoValue .GNothing := by
  constructor
  · intro v h
    match v with
    | .VBool b => cases b <;> rfl
    | .VInt n => simp [convert_to_go_value, convert_from_go_value, pyEq]
    | .VFloat f => simp [convert_to_go_value, convert_from_go_value, pyEq]
    | .VStr s => simp [convert_to_go_value, convert_from_go_value, pyEq]
    | .VNone => simp [isPrimNonNone] at h
    | .VGoValue g => simp [isPrimNonNone] at h
    | .VList xs => simp [isPrimNonNone] at h
    | .VTuple xs => simp [isPrimNonNone] at h
    | .VDict ps => simp [isPrimNonNone] at h
    | .VObj oid cls attrs => simp [isPrimNonNone] at h
  · rfl

/-- Claim C1, counterexample: decoding the encoding of `None` does not
return `None` (nor a value Python-equal to it) — it returns the Nothing
`GoValue`, because the decoder's tag dispatch has no NOTHIN case and falls
through to the object-handle branch. -/
theorem C1_none_roundtrip_fails :
    pyEq (convert_from_go_value (convert_to_go_value envEmpty st0 .VNone).1) .VNone = false :=
  rfl

/-- Claim C1, witness: the boolean `True` round-trips to the integer 1,
Python-equal to `True`. -/
theorem C1_witness :
    isPrimNonNone (.VBool true) = true ∧
    pyEq (convert_from_go_value (convert_to_go_value envEmpty st0 (.VBool true)).1)
      (.VBool true) = true :=
  ⟨rfl, (C1_primitive_roundtrip envEmpty st0).1 (.VBool true) rfl⟩

/-- Claim C2: after `define_function` stores `f` under a fresh identifier,
`gopy_wrapper` on that identifier returns the structured payload
`{result: encoded f-result, error: None}` when `f` succeeds on the decoded
arguments and `{result: None, error: str(e)}` when `f` raises; an unknown
identifier also yields the error payload (the KeyError is caught inside the
adapter) — in every case a payload is returned, never a native exception. -/
theorem C2_dispatch_structured_payload (env : ClassEnv) (st : BridgeState)
    (name : String) (f : List PyVal → Except String PyVal) (pc : Nat)
    (argc : Option Int) (args : List PyVal)
    (hfresh : lookupA st.defined_functions (uuidStr st.next_uuid) = none) :
    (∀ r, f args = .ok r →
      gopy_wrapper env (uuidStr st.next_uuid) args (define_function st name f pc argc)
        = ({ result := some (convert_to_go_value env (define_function st name f pc argc) r).1,
             error := none },
           (convert_to_go_value env (define_function st name f pc argc) r).2)) ∧
    (∀ e, f args = .error e →
      gopy_wrapper env (uuidStr st.next_uuid) args (define_function st name f pc argc)
        = ({ result := none, error := some e }, define_function st name f pc argc)) ∧
    (∀ badId, lookupA (define_function st name f pc argc).defined_functions badId = none →
      gopy_wrapper env badId args (define_function st name f pc argc)
        = ({ result := none, error := some ("KeyError: " ++ badId) },
           define_function st name f pc argc)) := by
  have hlook : lookupA (define_function st name f pc argc).defined_functions
      (uuidStr st.next_uuid) = some (.userFn f) := by
    simpa [define_function] using lookupA_append_self (CallableEntry.userFn f) hfresh
  refine ⟨?_, ?_, ?_⟩
  · intro r hr
    simp [gopy_wrapper, hlook, runCallable, hr]
  · intro e he
    simp [gopy_wrapper, hlook, runCallable, he]
  · intro badId hb
    simp [gopy_wrapper, hb]

/-- Claim C2, witness: a concrete registration and dispatch succeed with
the encoded result in the payload. -/
theorem C2_witness :
    lookupA st0.defined_functions (uuidStr st0.next_uuid) = none ∧
    gopy_wrapper envEmpty (uuidStr st0.next_uuid) [.VInt 2, .VInt 3]
        (define_function st0 "add" addFn 2 none)
      = ({ result := some (.GInt 5), error := none },
         define_function st0 "add" addFn 2 none) :=
  ⟨rfl,
   (C2_dispatch_structured_payload envEmpty st0 "add" addFn 2 none
      [.VInt 2, .VInt 3] rfl).1 (.VInt 5) rfl⟩

/-- Claim C3: the code does not make the second registration a no-op. The
`IsClassDefined` early check exists but its branch body is `pass`, so a
second `define_class` for an already-defined class name rebuilds the
definition and submits a second `ClassDefinition`: after registering the
same host type twice there are two submissions, where the claim requires
exactly one. -/
theorem C3_second_registration_resubmits :
    (define_class st0 cC3).vm_classes.contains "Counter" = true ∧
    (define_class (define_class st0 cC3) cC3).submitted_defs.length = 2 :=
  ⟨rfl, rfl⟩

/-- Claim C5: the attribute accessors are late-bound. For the class `cC5`
with the two public non-callable attributes `aaa` and `bbb`, the getter
dispatch entry that the built `ClassDefinition` wires to the variable `aaa`
(identifier uuid-1) reads `bbb` — the getter lambda closes over the loop
variable `attr_name`, which holds the last `dir` entry by the time any
getter runs — and the setter wired to `aaa` (uuid-2) likewise writes `bbb`:
on an instance with `aaa = 1, bbb = 2`, the `aaa` getter returns 2, and
invoking the `aaa` setter with 9 leaves `aaa` at 1 and sets `bbb` to 9. -/
theorem C5_accessors_late_bound :
    ((lookupA (buildClass st0 cC5).2.PublicVariables "aaa").map ClassVariable.getterId
      = some (some "uuid-1")) ∧
    ((lookupA (buildClass st0 cC5).2.PublicVariables "aaa").map ClassVariable.setterId
      = some (some "uuid-2")) ∧
    (gopy_wrapper envEmpty "uuid-1" [.VInt 7] stC5).1
      = { result := some (.GInt 2), error := none } ∧
    lookupA (gopy_wrapper envEmpty "uuid-2" [.VInt 7, .VInt 9] stC5).2.object_instances 7
      = some (.VObj 7 "CexC5" [("aaa", .VInt 1), ("bbb", .VInt 9)]) :=
  ⟨rfl, rfl, rfl, rfl⟩

/-- Claim C4: encoding then decoding a value built from sequences and
string-keyed mappings over primitives preserves the structure: a sequence
comes back as a list of the same length with the round-tripped elements in
order, and a mapping keeps its entries with each key bound to the
round-tripped value; elements are converted recursively. -/
theorem C4_nested_roundtrip (env : ClassEnv) (st : BridgeState) :
    (∀ v, isTree v = true →
      convert_from_go_value (convert_to_go_value env st v).1 = roundTripped v) ∧
    (∀ xs, isTreeL xs = true →
      convert_from_go_value (convert_to_go_value env st (.VList xs)).1
        = .VList (xs.map roundTripped)) ∧
    (∀ ps, isTreeE ps = true →
      convert_from_go_value (convert_to_go_value env st (.VDict ps)).1
        = .VDict (ps.map (fun kv => (kv.1, roundTripped kv.2)))) := by
  have main : ∀ v, isTree v = true →
      convert_from_go_value (convert_to_go_value env st v).1 = roundTripped v := by
    intro v h
    rw [convert_tree_pure env v st h]
    exact decode_encTree v h
  refine ⟨main, ?_, ?_⟩
  · intro xs h
    have := main (.VList xs) (by simpa [isTree] using h)
    simpa [roundTripped, roundTrippedL_eq_map] using this
  · intro ps h
    have := main (.VDict ps) (by simpa [isTree] using h)
    simpa [roundTripped, roundTrippedE_eq_map] using this

/-- Claim C4, witness: a concrete nested value (list containing an int, a
bool, a dict and a tuple) round-trips structurally. -/
theorem C4_witness :
    isTree (.VList [.VInt 2, .VBool true, .VDict [("k", .VStr "s")], .VTuple [.VInt 4]])
      = true ∧
    convert_from_go_value (convert_to_go_value envEmpty st0
        (.VList [.VInt 2, .VBool true, .VDict [("k", .VStr "s")], .VTuple [.VInt 4]])).1
      = .VList [.VInt 2, .VInt 1, .VDict [("k", .VStr "s")], .VList [.VInt 4]] :=
  ⟨rfl,
   (C4_nested_roundtrip envEmpty st0).1
     (.VList [.VInt 2, .VBool true, .VDict [("k", .VStr "s")], .VTuple [.VInt 4]]) rfl⟩

/-- Claim C7: a value the `objectivelol.py` codec cannot classify as a
primitive, handle, sequence or mapping (there is no registrable-object
fallback in that codec) hits no conversion branch and raises
`ValueError("Unsupported argument type %s" % type(value))` — an encoding
error naming the value's runtime type, not a success and not an unrelated
error. -/
theorem C7_unclassifiable_encoding_error (v : PyVal)
    (h : V2.classifiable v = false) :
    V2.convert_to_go_value v
      = .error ("Unsupported argument type " ++ V2.typeName v) := by
  match v with
  | .VNone => rfl
  | .VObj oid cls attrs => rfl
  | .VBool b => simp [V2.classifiable] at h
  | .VInt n => simp [V2.classifiable] at h
  | .VFloat f => simp [V2.classifiable] at h
  | .VStr s => simp [V2.classifiable] at h
  | .VGoValue g => simp [V2.classifiable] at h
  | .VList xs => simp [V2.classifiable] at h
  | .VTuple xs => simp [V2.classifiable] at h
  | .VDict ps => simp [V2.classifiable] at h

/-- Claim C7, witness: an opaque object raises the encoding error naming
its type. -/
theorem C7_witness :
    V2.classifiable (.VObj 0 "Widget" []) = false ∧
    V2.convert_to_go_value (.VObj 0 "Widget" [])
      = .error "Unsupported argument type Widget" :=
  ⟨rfl, C7_unclassifiable_encoding_error (.VObj 0 "Widget" []) rfl⟩

/-- Claim C9: each asynchronous facade operation produces, as the outcome
its awaited future resolves or rejects with, exactly what its synchronous
counterpart returns or raises — same decoded result, same originating error
message — for every oracle behaviour, name, receiver, argument list and
source text. -/
theorem C9_async_matches_sync (env : ClassEnv) (o : VMOracle) (st : BridgeState)
    (name code : String) (receiver : GoVal) (args : List PyVal) :
    call_async env o st name args = call env o st name args ∧
    call_method_async env o st receiver name args = call_method env o st receiver name args ∧
    execute_async o code = execute o code := by
  refine ⟨?_, ?_, ?_⟩
  · cases h : o.Call name (convert_to_go_value env st (.VTuple args)).1 <;>
      simp [call, call_async, h]
  · cases h : o.CallMethod receiver name (convert_to_go_value env st (.VTuple args)).1 <;>
      simp [call_method, call_method_async, h]
  · cases h : o.Execute code <;> simp [execute, execute_async, h]

/-- Claim C10: with `argc` omitted, a zero-parameter function registers
with declared arity `None`, not 0 — the idiom
`argc is None and len(parameters) or argc` returns its falsy middle operand
only when it is truthy, so a parameter count of 0 (falsy) falls through to
the original `None` — and likewise a method taking only `self` gets
`Argc = None`; for positive counts the declared arity equals the count
(minus one for methods), as the claim states. -/
theorem C10_zero_arity_becomes_none :
    pyFnArgcDefault none 0 = none ∧
    pyFnArgcDefault none 2 = some 2 ∧
    pyMethodArgcDefault none 1 = none ∧
    pyMethodArgcDefault none 3 = some 2 ∧
    (define_function st0 "f" (fun _ => .ok .VNone) 0 none).vm_functions
      = [("uuid-0", "f", none)] ∧
    (build_method st0 "m" 1 (fun _ _ => .ok .VNone) none).2.Argc = none :=
  ⟨rfl, rfl, rfl, rfl, rfl, rfl⟩

/-- Claim C6: encoding an opaque object first registers its type through
`define_class`, then allocates a fresh instance handle and stores the
object in the Object Instance Registry under the handle's ID: the returned
value is that handle, looking the handle up in `object_instances` yields
the very object that was encoded, and a `ClassDefinition` named after the
object's type has been submitted. -/
theorem C6_object_encoding_registers (env : ClassEnv) (st : BridgeState)
    (oid : Nat) (cls : String) (attrs : List (String × PyVal)) (c : PyClass)
    (henv : env cls = some c) (hname : c.name = cls) :
    (convert_to_go_value env st (.VObj oid cls attrs)).1
        = .GHandle (define_class st c).next_handle ∧
    lookupA (convert_to_go_value env st (.VObj oid cls attrs)).2.object_instances
        (define_class st c).next_handle = some (.VObj oid cls attrs) ∧
    (convert_to_go_value env st (.VObj oid cls attrs)).2.submitted_defs.any
        (fun cd => cd.Name == cls) = true := by
  refine ⟨?_, ?_, ?_⟩
  · simp [convert_to_go_value, henv]
  · simp only [convert_to_go_value, henv]
    exact lookupA_updateA_self _ _ _
  · simp only [convert_to_go_value, henv, define_class, vmDefineClass]
    simp [List.any_append, buildClass_Name st c, hname]

/-- Claim C6, witness: a concrete object of a registered type is encoded
to handle 0, stored under it, and its class is submitted. -/
theorem C6_witness :
    envC6 "Box" = some cBox ∧ cBox.name = "Box" ∧
    (convert_to_go_value envC6 st0 (.VObj 5 "Box" [("size", .VInt 3)])).1
      = .GHandle (define_class st0 cBox).next_handle ∧
    lookupA (convert_to_go_value envC6 st0 (.VObj 5 "Box" [("size", .VInt 3)])).2.object_instances
        (define_class st0 cBox).next_handle = some (.VObj 5 "Box" [("size", .VInt 3)]) ∧
    (convert_to_go_value envC6 st0 (.VObj 5 "Box" [("size", .VInt 3)])).2.submitted_defs.any
        (fun cd => cd.Name == "Box") = true := by
  have h := C6_object_encoding_registers envC6 st0 5 "Box" [("size", .VInt 3)] cBox rfl rfl
  exact ⟨rfl, rfl, h.1, h.2.1, h.2.2⟩

/-- Claim C8: every dispatch identifier referenced by a built
`ClassDefinition` — the constructor entry, each method entry, each getter
and each setter — has a matching entry in `defined_functions` in the state
the builder hands to `DefineClass` (each builder operation inserts the
wrapper under its generated identifier before wiring the identifier into
the definition), and still has one after the submission. -/
theorem C8_dispatch_ids_have_entries (st : BridgeState) (c : PyClass) (fid : String)
    (h : fid ∈ refIds (buildClass st c).2) :
    (lookupA (buildClass st c).1.defined_functions fid).isSome = true ∧
    (lookupA (define_class st c).defined_functions fid).isSome = true := by
  have hg := buildClass_good st c fid h
  exact ⟨hg, hg⟩

/-- Claim C8, witness: in a concrete built class, the constructor entry
uuid-0, the getter uuid-1, the setter uuid-2 and the method entry uuid-3
are all referenced and all present in `defined_functions`. -/
theorem C8_witness :
    "uuid-0" ∈ refIds (buildClass st0 cC8).2 ∧
    "uuid-3" ∈ refIds (buildClass st0 cC8).2 ∧
    (lookupA (buildClass st0 cC8).1.defined_functions "uuid-0").isSome = true ∧
    (lookupA (define_class st0 cC8).defined_functions "uuid-3").isSome = true := by
  refine ⟨by decide, by decide, ?_, ?_⟩
  · exact (C8_dispatch_ids_have_entries st0 cC8 "uuid-0" (by decide)).1
  · exact (C8_dispatch_ids_have_entries st0 cC8 "uuid-3" (by decide)).2

end Olol
